import Mathlib

/-!
Verification of the dock-ops web client against its specification.

The repository is a React/Next.js front-end; the definitions below are a
shallow embedding of the pure logic of its pages and providers:

* JavaScript values relevant to the organization-selection context
  (number-or-null with NaN) and JS string/number conversions
  (parseInt, Number.prototype.toString);
* the organization-selection provider (src/apps/web/src/contexts/org-context.tsx);
* the super-admin organization page (src/apps/web/src/app/internal/admin/orgs/page.tsx):
  billing-override activity predicate and effective-limit cell;
* the billing page (src/unnamed/part_000, BillingPage): plan list and
  plan classification;
* the org admin page (src/unnamed/part_000, AdminPage): query enabled
  predicates, the no-org placeholder, review-mutation cache effects;
* the onboarding page (src/apps/web/src/app/onboarding/page.tsx):
  organization creation with duplicate (409) handling;
* the bulk-import dialog (src/apps/web/src/components/import-dialog.tsx);
* the header auto-selection effect (src/apps/web/src/components/header.tsx).

Timestamps are modelled as integers (milliseconds), matching Date
comparison on the code's date values.
-/

namespace DockOps

/-- A JavaScript value of type number-or-null as held by the
organization-selection state (orgId : number | null). NaN is included
because parseInt returns NaN on unparseable input. -/
inductive JsVal : Type where
  | jNull : JsVal
  | jNaN : JsVal
  | jInt : Int → JsVal
deriving DecidableEq, Repr

/-- JavaScript truthiness of a number-or-null value: null, NaN and 0 are
falsy, every other number is truthy. -/
def jsTruthy : JsVal → Bool
  | .jNull => false
  | .jNaN => false
  | .jInt n => n != 0

/-- JavaScript truthiness of a string-or-null value: null and the empty
string are falsy. -/
def jsTruthyStr : Option String → Bool
  | none => false
  | some s => s != ""

/-- JavaScript `m || fallback` on a string-or-undefined message: the
fallback is used when the message is absent or empty. -/
def jsOrElse (m : Option String) (fallback : String) : String :=
  match m with
  | none => fallback
  | some s => if s = "" then fallback else s

/-- Numeric value of the leading run of decimal digits of a character
list, as accumulated left to right (the digit-consuming loop of JS
parseInt in base 10); none when there is no leading digit. -/
def parseDigits (cs : List Char) : Option Nat :=
  let ds := cs.takeWhile Char.isDigit
  if ds.isEmpty then none
  else some (ds.foldl (fun a c => a * 10 + (c.toNat - 48)) 0)

/-- Model of JS parseInt(s, 10): skip leading whitespace, read an
optional sign, then the longest prefix of decimal digits; the result is
none exactly when parseInt returns NaN. -/
def jsParseInt (s : String) : Option Int :=
  let cs := s.data.dropWhile Char.isWhitespace
  match cs with
  | [] => none
  | c :: rest =>
    if c = '-' then (parseDigits rest).map (fun n => -(n : Int))
    else if c = '+' then (parseDigits rest).map (fun n => (n : Int))
    else (parseDigits (c :: rest)).map (fun n => (n : Int))

/-- Model of JS String.prototype.trim: strip leading and trailing
whitespace. -/
def jsTrim (s : String) : String :=
  String.mk
    (((s.data.dropWhile Char.isWhitespace).reverse.dropWhile
        Char.isWhitespace).reverse)

/-- Character of a single decimal digit. -/
def digitChar : Nat → Char
  | 0 => '0' | 1 => '1' | 2 => '2' | 3 => '3' | 4 => '4'
  | 5 => '5' | 6 => '6' | 7 => '7' | 8 => '8' | 9 => '9'
  | _ => '*'

/-- Model of JS Number.prototype.toString on a natural number: its
decimal digit string. -/
def natToString (n : Nat) : String :=
  if n = 0 then "0"
  else String.mk (((Nat.digits 10 n).reverse).map digitChar)

/-- Model of JS Number.prototype.toString on an integer. -/
def intToString (n : Int) : String :=
  if n < 0 then "-" ++ natToString (-n).toNat else natToString n.toNat

/-- Model of id.toString() on the number-or-null selection value (only
ever called on a truthy value in the source). -/
def jsValToString : JsVal → String
  | .jNull => "null"
  | .jNaN => "NaN"
  | .jInt n => intToString n

/-! ## Organization-selection context (org-context.tsx) -/

/-- OrgProvider mount effect (org-context.tsx lines 16-25): read the
persisted "selectedOrgId" string; when it is truthy, the state becomes
parseInt(stored, 10) — NaN when unparseable, since parseInt does not
throw and the surrounding try/catch never fires; otherwise the state
keeps its initial null. -/
def orgProviderMountState (stored : Option String) : JsVal :=
  match stored with
  | none => .jNull
  | some s =>
    if s = "" then .jNull
    else
      match jsParseInt s with
      | some n => .jInt n
      | none => .jNaN

/-- setOrgId storage effect (org-context.tsx lines 27-34): a truthy id is
persisted as id.toString(), a falsy id (null, 0, NaN) removes the
persisted value. Returns the new stored value. -/
def setOrgIdStorage (id : JsVal) (_stored : Option String) : Option String :=
  if jsTruthy id then some (jsValToString id) else none

/-- setOrgId in-memory effect (org-context.tsx line 28): the state simply
becomes the given id. -/
def setOrgIdState (id : JsVal) : JsVal := id

/-! ## Super-admin organization page (internal/admin/orgs/page.tsx) -/

/-- An organization row as consumed by the super-admin orgs page.
billing_override_expires_at is the parsed timestamp of the stored expiry
(none when absent). -/
structure OrgRecord : Type where
  id : Int
  name : String
  vessel_count : Option Int
  billing_override_enabled : Bool
  billing_override_vessel_limit : Option Int
  billing_override_expires_at : Option Int
  billing_override_reason : Option String
deriving DecidableEq, Repr

/-- Override-status badge predicate (page.tsx lines 210-213):
org.billing_override_enabled and (no expiry or the expiry Date is
strictly greater than the current Date). -/
def overrideActive (org : OrgRecord) (now : Int) : Bool :=
  org.billing_override_enabled &&
    (match org.billing_override_expires_at with
     | none => true
     | some t => t > now)

/-- What the Effective Limit table cell shows: a number, the string
"Unlimited", or the string "N/A (no override)". -/
inductive LimitCell : Type where
  | num : Int → LimitCell
  | unlimited : LimitCell
  | noOverride : LimitCell
deriving DecidableEq, Repr

/-- getEffectiveVesselLimit (page.tsx lines 146-157): when the override
is enabled and unexpired, the override limit (absent limit shown as
"Unlimited"); otherwise the literal cell "N/A (no override)". -/
def getEffectiveVesselLimit (org : OrgRecord) (now : Int) : LimitCell :=
  if org.billing_override_enabled then
    match org.billing_override_expires_at with
    | none =>
      match org.billing_override_vessel_limit with
      | some n => .num n
      | none => .unlimited
    | some t =>
      if t > now then
        match org.billing_override_vessel_limit with
        | some n => .num n
        | none => .unlimited
      else .noOverride
  else .noOverride

/-- The effective-limit cell as the specification words it (spec section
4.3 and claim C2): when the override is active, the override limit
(absent limit = Unlimited); when inactive, fall back to the plan's
limit. Written from the spec only, for comparison with
getEffectiveVesselLimit. -/
def effectiveLimitSpec (org : OrgRecord) (now : Int) (planLimit : Int) : LimitCell :=
  if overrideActive org now then
    match org.billing_override_vessel_limit with
    | some n => .num n
    | none => .unlimited
  else .num planLimit

/-! ## Billing page (src/unnamed/part_000, BillingPage) -/

/-- The vessels field of a client-embedded plan: a number or the literal
string "Unlimited". -/
inductive PlanVessels : Type where
  | num : Nat → PlanVessels
  | unlimitedStr : PlanVessels
deriving DecidableEq, Repr

/-- A client-embedded plan (id, display name, vessels, price). -/
structure Plan : Type where
  id : String
  name : String
  vessels : PlanVessels
  price : String
deriving DecidableEq, Repr

/-- The fixed PLANS list (part_000 lines 15-20). -/
def PLANS : List Plan :=
  [ ⟨"starter", "Starter", .num 3, "$29"⟩,
    ⟨"standard", "Standard", .num 5, "$49"⟩,
    ⟨"pro", "Pro", .num 10, "$99"⟩,
    ⟨"unlimited", "Unlimited", .unlimitedStr, "$199"⟩ ]

/-- The slice of the billing-status payload the billing page reads for
plan classification: the current plan id (null when no subscription) and
the effective vessel limit (null = unlimited). -/
structure BillingStatus : Type where
  plan : Option String
  vessel_limit : Option Int
deriving DecidableEq, Repr

/-- isCurrentPlan (part_000 line 258): billing.plan === plan.id. -/
def isCurrentPlan (billing : BillingStatus) (plan : Plan) : Bool :=
  match billing.plan with
  | some p => p == plan.id
  | none => false

/-- isUpgrade (part_000 lines 259-266): billing.plan is truthy, the plan
is not current, and either it is the unlimited tier or it has a numeric
vessels count strictly above the non-null current vessel limit. -/
def isUpgrade (billing : BillingStatus) (plan : Plan) : Bool :=
  jsTruthyStr billing.plan &&
    !(isCurrentPlan billing plan) &&
    (plan.id == "unlimited" ||
      (match billing.vessel_limit, plan.vessels with
       | some lim, .num n => (n : Int) > lim
       | _, _ => false))

/-- The three-way plan classification rendered by the Available Plans
card (current badge, Upgrade button, Change Plan button). -/
inductive PlanClass : Type where
  | current : PlanClass
  | upgrade : PlanClass
  | lateral : PlanClass
deriving DecidableEq, Repr

/-- Classification of a listed plan against the billing status, as the
card renders it (part_000 lines 285-301): the current badge wins, then
the Upgrade label, else Change Plan. -/
def classifyPlan (billing : BillingStatus) (plan : Plan) : PlanClass :=
  if isCurrentPlan billing plan then .current
  else if isUpgrade billing plan then .upgrade
  else .lateral

/-! ## Org admin page (src/unnamed/part_000, AdminPage) -/

/-- Sign-in state from the identity provider: undefined while loading,
then true or false. -/
def SignedIn : Type := Option Bool

/-- Enabled predicate of the org-members query (part_000 line 355):
double-negated truthiness of orgId and isSignedIn === true. -/
def membersQueryEnabled (orgId : JsVal) (isSignedIn : Option Bool) : Bool :=
  jsTruthy orgId && (isSignedIn == some true)

/-- Enabled predicate of the org-requests query (part_000 line 361):
isSignedIn === true only. -/
def orgRequestsQueryEnabled (isSignedIn : Option Bool) : Bool :=
  isSignedIn == some true

/-- Top-level render outcome of the org admin page (part_000 lines
429-446): redirect when not signed in, the select-an-organization
placeholder when orgId is falsy, otherwise the full content. -/
inductive AdminView : Type where
  | redirectHome : AdminView
  | selectOrgPlaceholder : AdminView
  | content : AdminView
deriving DecidableEq, Repr

/-- The org admin page's top-level branching (part_000 lines 429-446). -/
def adminPageView (isSignedIn : Option Bool) (orgId : JsVal) : AdminView :=
  if !(isSignedIn == some true) then .redirectHome
  else if !(jsTruthy orgId) then .selectOrgPlaceholder
  else .content

/-- Query-cache keys used by the pages modelled here. -/
inductive QueryKey : Type where
  | me : QueryKey
  | orgRequests : QueryKey
  | orgMembers : QueryKey
  | searchOrgs : QueryKey
  | billingStatus : QueryKey
deriving DecidableEq, Repr

/-- A cache entry: cached data (abstract payload) plus a stale flag;
invalidation marks the entry stale so it refetches. -/
structure CacheEntry : Type where
  payload : Option String
  stale : Bool
deriving DecidableEq, Repr

/-- The query cache, one entry per key. -/
def Cache : Type := QueryKey → CacheEntry

/-- queryClient.invalidateQueries on a set of keys: those entries are
marked stale, every other entry is untouched. -/
def invalidateQueries (keys : List QueryKey) (c : Cache) : Cache :=
  fun k => if k ∈ keys then { c k with stale := true } else c k

/-- Keys invalidated by reviewRequestMutation's onSuccess (part_000
lines 421-422): the org-requests list and the current-user entry. -/
def reviewRequestSuccessInvalidations : List QueryKey :=
  [.orgRequests, .me]

/-- Outcome of a mutation call: success or an error carrying a message. -/
inductive MutationOutcome : Type where
  | ok : MutationOutcome
  | err : Option String → MutationOutcome
deriving DecidableEq, Repr

/-- Cache effect of settling the review-request mutation (part_000 lines
416-427): on success both listed keys are invalidated; onError only
shows a toast and touches no cache entry. -/
def reviewRequestCacheEffect (outcome : MutationOutcome) (c : Cache) : Cache :=
  match outcome with
  | .ok => invalidateQueries reviewRequestSuccessInvalidations c
  | .err _ => c

/-! ## Onboarding page (onboarding/page.tsx) -/

/-- A toast notification. -/
inductive Toast : Type where
  | success : String → Toast
  | error : String → Toast
  | info : String → Toast
deriving DecidableEq, Repr

/-- The request body sent to api.createOrg (page.tsx lines 55-56); the
mutation wraps the name with force: force or false. -/
structure CreateOrgRequest : Type where
  name : String
  force : Bool
deriving DecidableEq, Repr

/-- Local state of the onboarding page relevant to organization
creation. -/
structure OnboardingState : Type where
  orgName : String
  pendingOrgName : String
  duplicateConfirmOpen : Bool
deriving DecidableEq, Repr

/-- handleCreateRequest for a super-admin (page.tsx lines 120-132): an
empty trimmed name only toasts an error; otherwise the mutation fires
with the trimmed name and no force flag. -/
def handleCreateRequest (s : OnboardingState) : Option CreateOrgRequest :=
  if jsTrim s.orgName = "" then none
  else some ⟨jsTrim s.orgName, false⟩

/-- The HTTP error shape inspected by createOrgMutation's onError:
error?.response?.status. -/
structure ApiError : Type where
  status : Option Int
  message : Option String
deriving DecidableEq, Repr

/-- createOrgMutation onError (page.tsx lines 66-74): a 409 status opens
the duplicate dialog pre-filled from the orgName field and shows no
toast; any other failure shows the error toast (message or generic
fallback) and leaves the dialog state alone. -/
def createOrgOnError (s : OnboardingState) (e : ApiError) :
    OnboardingState × Option Toast :=
  if e.status = some 409 then
    ({ s with pendingOrgName := s.orgName, duplicateConfirmOpen := true }, none)
  else
    (s, some (.error (jsOrElse e.message "Failed to create organization")))

/-- createOrgMutation onSuccess (page.tsx lines 57-65): success toast,
dialog closed, pending name cleared. -/
def createOrgOnSuccess (s : OnboardingState) (createdName : String) :
    OnboardingState × Option Toast :=
  ({ s with duplicateConfirmOpen := false, pendingOrgName := "" },
   some (.success ("Organization \"" ++ createdName ++ "\" created successfully!")))

/-- The Create Anyway button (page.tsx lines 247-257): when the pending
name is truthy, re-submit it with force: true. -/
def confirmCreateAnyway (s : OnboardingState) : Option CreateOrgRequest :=
  if s.pendingOrgName != "" then some ⟨s.pendingOrgName, true⟩ else none

/-! ## Bulk-import dialog (components/import-dialog.tsx) -/

/-- A created item as rendered in the results list. -/
structure CreatedItem : Type where
  id : Int
  name : Option String
  item_name : Option String
deriving DecidableEq, Repr

/-- A per-row import error. -/
structure RowError : Type where
  row : Nat
  error : String
deriving DecidableEq, Repr

/-- The structured import result rendered by the dialog. -/
structure ImportResult : Type where
  success : Bool
  created_count : Nat
  error_count : Nat
  created : List CreatedItem
  errors : List RowError
deriving DecidableEq, Repr

/-- A thrown JS error as caught by handleImport: its optional message. -/
structure ThrownError : Type where
  message : Option String
deriving DecidableEq, Repr

/-- handleImport (import-dialog.tsx lines 51-72): without a file nothing
happens; with a file, the caller-supplied import either yields its
result, or, when it throws, a synthetic result with one row-0 error
carrying the thrown message (or the generic fallback), zero created and
an empty created list. -/
def handleImport (file : Option String)
    (onImport : String → Except ThrownError ImportResult) :
    Option ImportResult :=
  match file with
  | none => none
  | some f =>
    match onImport f with
    | .ok r => some r
    | .error e =>
      some { success := false
             created_count := 0
             error_count := 1
             created := []
             errors := [⟨0, jsOrElse e.message "Import failed"⟩] }

/-! ## Header auto-selection (components/header.tsx) -/

/-- A membership row as read by the header. -/
structure Membership : Type where
  org_id : Int
  org_name : String
  role : String
  status : String
deriving DecidableEq, Repr

/-- The payload of the me query: user flags plus memberships. -/
structure MeData : Type where
  is_super_admin : Bool
  memberships : List Membership
deriving DecidableEq, Repr

/-- activeMemberships (header.tsx line 23): the ACTIVE-status
memberships of the loaded me payload, or the empty list. -/
def activeMemberships (me : Option MeData) : List Membership :=
  match me with
  | none => []
  | some m => m.memberships.filter (fun mb => mb.status == "ACTIVE")

/-- The header's auto-select effect (header.tsx lines 27-31): when
signed in with a falsy selection and a non-empty active-membership list,
select the first active membership's org id; otherwise leave the
selection alone. Returns the post-effect selection. -/
def headerAutoSelect (isSignedIn : Bool) (orgId : JsVal)
    (ms : List Membership) : JsVal :=
  if isSignedIn && !(jsTruthy orgId) && decide (0 < ms.length) then
    match ms with
    | m :: _ => .jInt m.org_id
    | [] => orgId
  else orgId

/-!
# Theorems

The claims of the specification, settled against the embedding above.
-/

/-- Digit characters are digits. -/
theorem digitChar_isDigit {d : Nat} (h : d < 10) :
    (digitChar d).isDigit = true := by
  interval_cases d <;> decide

/-- Decoding a digit character recovers the digit. -/
theorem digitChar_toNat {d : Nat} (h : d < 10) :
    (digitChar d).toNat - 48 = d := by
  interval_cases d <;> decide

/-- Digit characters are not whitespace. -/
theorem digitChar_not_whitespace {d : Nat} (h : d < 10) :
    (digitChar d).isWhitespace = false := by
  interval_cases d <;> decide

/-- Digit characters are not the minus sign. -/
theorem digitChar_ne_dash {d : Nat} (h : d < 10) : digitChar d ≠ '-' := by
  interval_cases d <;> decide

/-- Digit characters are not the plus sign. -/
theorem digitChar_ne_plus {d : Nat} (h : d < 10) : digitChar d ≠ '+' := by
  interval_cases d <;> decide

/-- The parseInt accumulation over a rendered digit list recovers the
positional value of the digits. -/
theorem foldl_digitChar (L : List Nat) (hL : ∀ d ∈ L, d < 10) (acc : Nat) :
    (L.reverse.map digitChar).foldl (fun a c => a * 10 + (c.toNat - 48)) acc =
      acc * 10 ^ L.length + Nat.ofDigits 10 L := by
  induction L generalizing acc with
  | nil => simp
  | cons d L ih =>
    have hd : d < 10 := hL d (List.mem_cons_self d L)
    have hL' : ∀ x ∈ L, x < 10 := fun x hx => hL x (List.mem_cons_of_mem d hx)
    rw [List.reverse_cons, List.map_append, List.foldl_append, ih hL' acc]
    simp [digitChar_toNat hd, Nat.ofDigits_cons]
    ring

/-- jsParseInt on a non-empty string of digit characters returns the
accumulated numeric value. -/
theorem jsParseInt_digits (c : Char) (cs : List Char)
    (hdig : ∀ ch ∈ c :: cs, ch.isDigit = true)
    (hw : c.isWhitespace = false) (hdash : c ≠ '-') (hplus : c ≠ '+') :
    jsParseInt (String.mk (c :: cs)) =
      some (((c :: cs).foldl (fun a ch => a * 10 + (ch.toNat - 48)) 0 : Nat) :
        Int) := by
  have hdata : (String.mk (c :: cs)).data = c :: cs := rfl
  rw [jsParseInt, hdata]
  rw [List.dropWhile_cons]
  rw [hw]
  simp only [Bool.false_eq_true, if_false]
  rw [if_neg hdash, if_neg hplus]
  rw [parseDigits]
  rw [List.takeWhile_eq_self_iff.mpr hdig]
  simp

/-- A non-zero natural renders to a non-empty all-digit string whose
jsParseInt value is the natural itself. -/
theorem jsParseInt_natToString {m : Nat} (hm : m ≠ 0) :
    jsParseInt (natToString m) = some (m : Int) := by
  have hLne : Nat.digits 10 m ≠ [] := Nat.digits_ne_nil_iff_ne_zero.mpr hm
  have hLlt : ∀ d ∈ Nat.digits 10 m, d < 10 := fun d hd =>
    Nat.digits_lt_base (by norm_num) hd
  rcases hchars : (Nat.digits 10 m).reverse.map digitChar with _ | ⟨c, cs⟩
  · exfalso
    have : (Nat.digits 10 m).reverse = [] := by
      have := congrArg List.length hchars
      simpa using this
    exact hLne (by simpa using this)
  · have hdig : ∀ ch ∈ c :: cs, ch.isDigit = true := by
      intro ch hch
      rw [← hchars] at hch
      obtain ⟨d, hd, hdc⟩ := List.mem_map.mp hch
      rw [← hdc]
      exact digitChar_isDigit (hLlt d (List.mem_reverse.mp hd))
    obtain ⟨d0, hd0, hd0c⟩ : ∃ d, d ∈ (Nat.digits 10 m).reverse ∧
        digitChar d = c := by
      have : c ∈ (Nat.digits 10 m).reverse.map digitChar := by
        rw [hchars]
        exact List.mem_cons_self c cs
      obtain ⟨d, hd, hdc⟩ := List.mem_map.mp this
      exact ⟨d, hd, hdc⟩
    have hd0lt : d0 < 10 := hLlt d0 (List.mem_reverse.mp hd0)
    have hnat : natToString m = String.mk (c :: cs) := by
      rw [natToString, if_neg hm, hchars]
    rw [hnat]
    rw [jsParseInt_digits c cs hdig
      (by rw [← hd0c]; exact digitChar_not_whitespace hd0lt)
      (by rw [← hd0c]; exact digitChar_ne_dash hd0lt)
      (by rw [← hd0c]; exact digitChar_ne_plus hd0lt)]
    rw [← hchars, foldl_digitChar (Nat.digits 10 m) hLlt 0]
    simp [Nat.ofDigits_digits]

/-- The rendered string of a non-zero natural is non-empty. -/
theorem natToString_ne_empty {m : Nat} (hm : m ≠ 0) : natToString m ≠ "" := by
  intro h
  have hLne : Nat.digits 10 m ≠ [] := Nat.digits_ne_nil_iff_ne_zero.mpr hm
  rw [natToString, if_neg hm] at h
  have hdata := congrArg String.data h
  have : (Nat.digits 10 m).reverse.map digitChar = [] := hdata
  have := congrArg List.length this
  simp at this
  exact hLne this

/-- Loading a persisted non-zero natural restores it. -/
theorem orgProviderMountState_natToString {m : Nat} (hm : m ≠ 0) :
    orgProviderMountState (some (natToString m)) = .jInt (m : Int) := by
  rw [orgProviderMountState]
  rw [if_neg (natToString_ne_empty hm)]
  rw [jsParseInt_natToString hm]

/-- C1: for every organization record, the billing override is displayed
as active iff its enabled flag is true and its expiry is absent or
strictly after the current time; an expiry exactly equal to the current
instant makes the override inactive. -/
theorem c1_override_active_iff (org : OrgRecord) (now : Int) :
    (overrideActive org now = true ↔
      org.billing_override_enabled = true ∧
        (org.billing_override_expires_at = none ∨
          ∃ t, org.billing_override_expires_at = some t ∧ now < t)) ∧
    (org.billing_override_expires_at = some now →
      overrideActive org now = false) := by
  obtain ⟨i, nm, vc, en, lim, exp, rsn⟩ := org
  constructor
  · cases en <;> cases exp <;> simp [overrideActive]
  · intro h
    cases h
    cases en <;> simp [overrideActive]

/-- C1 witness: a concrete record whose expiry equals the current
instant is inactive. -/
theorem c1_override_active_witness :
    overrideActive ⟨1, "Acme", some 2, true, some 5, some 100, none⟩ 100 = false :=
  (c1_override_active_iff ⟨1, "Acme", some 2, true, some 5, some 100, none⟩ 100).2 rfl

/-- C2 counterexample: for an organization with an inactive override the
super-admin page's effective-limit cell is the fixed text
"N/A (no override)"; it does not fall back to the plan's limit (here 5)
as the claim states. -/
theorem c2_effective_limit_counterexample :
    getEffectiveVesselLimit ⟨1, "Acme", some 2, false, none, none, none⟩ 0 ≠
      effectiveLimitSpec ⟨1, "Acme", some 2, false, none, none, none⟩ 0 5 := by
  decide

/-- C2 (amended): when the override is active the effective-limit cell
shows the override limit, with an absent limit shown as "Unlimited";
when the override is inactive the cell shows the fixed text
"N/A (no override)" rather than the plan's limit. -/
theorem c2_effective_limit (org : OrgRecord) (now : Int) :
    (overrideActive org now = true →
      getEffectiveVesselLimit org now =
        (match org.billing_override_vessel_limit with
         | some n => .num n
         | none => .unlimited)) ∧
    (overrideActive org now = false →
      getEffectiveVesselLimit org now = .noOverride) := by
  obtain ⟨i, nm, vc, en, lim, exp, rsn⟩ := org
  cases en <;> cases exp <;> cases lim <;>
    simp [overrideActive, getEffectiveVesselLimit]

/-- C2 witness: a concrete active override with an absent limit shows
"Unlimited". -/
theorem c2_effective_limit_witness :
    getEffectiveVesselLimit ⟨1, "Acme", some 2, true, none, some 100, none⟩ 50 =
      .unlimited :=
  (c2_effective_limit ⟨1, "Acme", some 2, true, none, some 100, none⟩ 50).1 (by decide)

/-- C4 counterexample: a signed-in user with no organization selected
sees the select-an-organization placeholder and the member-list query is
disabled, but the org-request-list query's enabled predicate is true, so
that query IS issued, contradicting the claim that neither query is
issued. -/
theorem c4_no_org_counterexample :
    adminPageView (some true) .jNull = .selectOrgPlaceholder ∧
    membersQueryEnabled .jNull (some true) = false ∧
    orgRequestsQueryEnabled (some true) = true := by
  decide

/-- C4 (amended): for a signed-in user with no organization selected the
org admin page renders the select-an-organization placeholder and the
member-list query is never issued (its enabled predicate is false), but
the org-request-list query is still issued because its enabled predicate
depends only on sign-in. -/
theorem c4_no_org_placeholder (isSignedIn : Option Bool) (orgId : JsVal)
    (hs : isSignedIn = some true) (ho : orgId = .jNull) :
    adminPageView isSignedIn orgId = .selectOrgPlaceholder ∧
    membersQueryEnabled orgId isSignedIn = false ∧
    orgRequestsQueryEnabled isSignedIn = true := by
  subst hs; subst ho; decide

/-- C4 witness: the amended statement at the concrete no-org state. -/
theorem c4_no_org_placeholder_witness :
    adminPageView (some true) JsVal.jNull = .selectOrgPlaceholder ∧
    membersQueryEnabled JsVal.jNull (some true) = false ∧
    orgRequestsQueryEnabled (some true) = true :=
  c4_no_org_placeholder (some true) .jNull rfl rfl

/-- C3: against a billing state with a (non-empty) current plan
identifier, a listed plan is classified current iff its id equals the
current plan id; the unlimited-tier plan is classified upgrade whenever
it is not current; and any other non-current plan is classified upgrade
exactly when its numeric vessel limit strictly exceeds the non-null
current effective limit. -/
theorem c3_plan_classification (billing : BillingStatus) (plan : Plan)
    (_hmem : plan ∈ PLANS) (p : String) (hp : billing.plan = some p)
    (hne : p ≠ "") :
    (classifyPlan billing plan = .current ↔ plan.id = p) ∧
    (plan.id = "unlimited" → plan.id ≠ p →
      classifyPlan billing plan = .upgrade) ∧
    (plan.id ≠ "unlimited" → plan.id ≠ p →
      (classifyPlan billing plan = .upgrade ↔
        ∃ lim n, billing.vessel_limit = some lim ∧
          plan.vessels = .num n ∧ lim < (n : Int))) := by
  obtain ⟨bp, bl⟩ := billing
  dsimp at hp
  subst hp
  have hcur : ∀ q : Plan, isCurrentPlan ⟨some p, bl⟩ q = true ↔ q.id = p := by
    intro q
    simp only [isCurrentPlan, beq_iff_eq]
    exact eq_comm
  refine ⟨?_, ?_, ?_⟩
  · cases hC : isCurrentPlan ⟨some p, bl⟩ plan
    · have : ¬ plan.id = p := by
        intro h
        rw [← hcur plan] at h
        simp [hC] at h
      simp [classifyPlan, hC]
      split <;> simp [this]
    · simp [classifyPlan, hC, (hcur plan).mp hC]
  · intro hu hne2
    have hC : isCurrentPlan ⟨some p, bl⟩ plan = false := by
      cases h : isCurrentPlan ⟨some p, bl⟩ plan
      · rfl
      · exact absurd ((hcur plan).mp h) hne2
    simp [classifyPlan, hC, isUpgrade, jsTruthyStr, hne, hu]
  · intro hnu hne2
    have hC : isCurrentPlan ⟨some p, bl⟩ plan = false := by
      cases h : isCurrentPlan ⟨some p, bl⟩ plan
      · rfl
      · exact absurd ((hcur plan).mp h) hne2
    have hB : (plan.id == "unlimited") = false := by
      simp [hnu]
    have hT : jsTruthyStr (some p) = true := by
      simp [jsTruthyStr, hne]
    rcases bl with _ | lim
    · have hU : isUpgrade ⟨some p, none⟩ plan = false := by
        rcases hv : plan.vessels with n | _ <;>
          simp [isUpgrade, hC, hT, hB, hv]
      constructor
      · intro h
        rw [show classifyPlan ⟨some p, none⟩ plan = .lateral by
          simp [classifyPlan, hC, hU]] at h
        cases h
      · rintro ⟨lim', n', h1, h2, h3⟩
        exact absurd h1 (by simp)
    · rcases hv : plan.vessels with n | _
      · have hU : isUpgrade ⟨some p, some lim⟩ plan =
            decide (lim < (n : Int)) := by
          simp [isUpgrade, hC, hT, hB, hv]
        constructor
        · intro h
          refine ⟨lim, n, rfl, rfl, ?_⟩
          by_contra hlt
          have hUf : isUpgrade ⟨some p, some lim⟩ plan = false := by
            rw [hU]
            exact decide_eq_false hlt
          rw [show classifyPlan ⟨some p, some lim⟩ plan = .lateral by
            simp [classifyPlan, hC, hUf]] at h
          cases h
        · rintro ⟨lim', n', h1, h2, h3⟩
          have h1' : lim = lim' := by
            injection h1
          have h2' : n = n' := by
            injection h2
          have hUt : isUpgrade ⟨some p, some lim⟩ plan = true := by
            rw [hU]
            exact decide_eq_true (by rw [h1', h2']; exact h3)
          simp [classifyPlan, hC, hUt]
      · have hU : isUpgrade ⟨some p, some lim⟩ plan = false := by
          simp [isUpgrade, hC, hT, hB, hv]
        constructor
        · intro h
          rw [show classifyPlan ⟨some p, some lim⟩ plan = .lateral by
            simp [classifyPlan, hC, hU]] at h
          cases h
        · rintro ⟨lim', n', h1, h2, h3⟩
          cases h2

/-- C3 witness: with current plan starter and effective limit 3, the Pro
plan (10 vessels) is classified upgrade. -/
theorem c3_plan_classification_witness :
    classifyPlan ⟨some "starter", some 3⟩ ⟨"pro", "Pro", .num 10, "$99"⟩ =
      .upgrade :=
  ((c3_plan_classification ⟨some "starter", some 3⟩
      ⟨"pro", "Pro", .num 10, "$99"⟩ (by decide) "starter" rfl
      (by decide)).2.2 (by decide) (by decide)).mpr
    ⟨3, 10, rfl, rfl, by decide⟩

/-- C5: a valid organization-creation submission sends the trimmed typed
name without the force flag; a 409 conflict opens the duplicate dialog
pre-filled with the typed name and shows no toast, while any other error
leaves the state unchanged and shows the error toast; confirming
re-submits the pre-filled name with force set to true (the submitted
name itself when the typed name carries no surrounding whitespace). -/
theorem c5_duplicate_conflict_flow (s : OnboardingState) (e : ApiError)
    (hname : jsTrim s.orgName ≠ "") :
    handleCreateRequest s = some ⟨jsTrim s.orgName, false⟩ ∧
    (e.status = some 409 →
      createOrgOnError s e =
        ({ s with pendingOrgName := s.orgName, duplicateConfirmOpen := true },
         none)) ∧
    (e.status ≠ some 409 →
      createOrgOnError s e =
        (s, some (.error (jsOrElse e.message
          "Failed to create organization")))) ∧
    confirmCreateAnyway
        { s with pendingOrgName := s.orgName, duplicateConfirmOpen := true } =
      some ⟨s.orgName, true⟩ ∧
    (jsTrim s.orgName = s.orgName →
      confirmCreateAnyway
          { s with pendingOrgName := s.orgName,
                   duplicateConfirmOpen := true } =
        some ⟨jsTrim s.orgName, true⟩) := by
  have hne : s.orgName ≠ "" := by
    intro h
    exact hname (by rw [h]; rfl)
  refine ⟨?_, ?_, ?_, ?_, ?_⟩
  · simp [handleCreateRequest, hname]
  · intro h
    simp [createOrgOnError, h]
  · intro h
    simp [createOrgOnError, h]
  · simp [confirmCreateAnyway, hne]
  · intro ht
    simp [confirmCreateAnyway, hne, ht]

/-- C5 witness: submitting "Marina Bay", receiving a 409, and confirming
re-submits "Marina Bay" with force set. -/
theorem c5_duplicate_conflict_flow_witness :
    handleCreateRequest ⟨"Marina Bay", "", false⟩ =
      some ⟨"Marina Bay", false⟩ ∧
    createOrgOnError ⟨"Marina Bay", "", false⟩ ⟨some 409, none⟩ =
      (⟨"Marina Bay", "Marina Bay", true⟩, none) ∧
    confirmCreateAnyway ⟨"Marina Bay", "Marina Bay", true⟩ =
      some ⟨"Marina Bay", true⟩ := by
  have h := c5_duplicate_conflict_flow ⟨"Marina Bay", "", false⟩
    ⟨some 409, none⟩ (by decide)
  exact ⟨h.1, h.2.1 rfl, h.2.2.2.1⟩

/-- C7: whenever the caller-supplied import operation throws, the
rendered result is exactly one synthetic row-0 error carrying the thrown
message (or the generic fallback), with zero created, one error, and an
empty created list. -/
theorem c7_import_throw (f : String)
    (onImport : String → Except ThrownError ImportResult) (e : ThrownError)
    (h : onImport f = .error e) :
    handleImport (some f) onImport =
      some { success := false
             created_count := 0
             error_count := 1
             created := []
             errors := [⟨0, jsOrElse e.message "Import failed"⟩] } := by
  simp [handleImport, h]

/-- C7 witness: a concrete import operation that throws with message
"boom" yields the synthetic single row-0 error result. -/
theorem c7_import_throw_witness :
    handleImport (some "fleet.csv") (fun _ => .error ⟨some "boom"⟩) =
      some ⟨false, 0, 1, [], [⟨0, "boom"⟩]⟩ := by
  have h := c7_import_throw "fleet.csv" (fun _ => .error ⟨some "boom"⟩)
    ⟨some "boom"⟩ rfl
  simpa [jsOrElse] using h

/-- C8: a successful join-request review invalidates exactly the
org-request-list entry and the current-user entry (both become stale,
their payloads and every other entry untouched); a failed review leaves
the whole cache unchanged. -/
theorem c8_review_invalidation (c : Cache) (msg : Option String) :
    ((reviewRequestCacheEffect .ok c QueryKey.orgRequests).stale = true ∧
     (reviewRequestCacheEffect .ok c QueryKey.me).stale = true ∧
     (reviewRequestCacheEffect .ok c QueryKey.orgRequests).payload =
       (c QueryKey.orgRequests).payload ∧
     (reviewRequestCacheEffect .ok c QueryKey.me).payload =
       (c QueryKey.me).payload ∧
     ∀ k, k ≠ QueryKey.orgRequests → k ≠ QueryKey.me →
       reviewRequestCacheEffect .ok c k = c k) ∧
    reviewRequestCacheEffect (.err msg) c = c := by
  refine ⟨⟨rfl, rfl, rfl, rfl, ?_⟩, rfl⟩
  intro k h1 h2
  simp [reviewRequestCacheEffect, invalidateQueries,
    reviewRequestSuccessInvalidations, h1, h2]

/-- C8 witness: on a concrete cache, success stales the org-request
entry, leaves the search-orgs entry untouched, and a failed review
leaves the cache unchanged. -/
theorem c8_review_invalidation_witness :
    (reviewRequestCacheEffect .ok (fun _ => ⟨some "d", false⟩)
        QueryKey.orgRequests).stale = true ∧
    reviewRequestCacheEffect .ok (fun _ => ⟨some "d", false⟩)
        QueryKey.searchOrgs =
      (fun (_ : QueryKey) => CacheEntry.mk (some "d") false)
        QueryKey.searchOrgs ∧
    reviewRequestCacheEffect (.err (some "x")) (fun _ => ⟨some "d", false⟩) =
      (fun _ => ⟨some "d", false⟩) := by
  have h := c8_review_invalidation (fun _ => ⟨some "d", false⟩) (some "x")
  exact ⟨h.1.1, h.1.2.2.2.2 QueryKey.searchOrgs (by decide) (by decide), h.2⟩

/-- C6 (failing input): with "abc" persisted, the provider's mount
effect adopts NaN into the selection state — parseInt returns NaN rather
than throwing, so the guarding try/catch never fires — instead of the
claimed none; an absent stored value does yield none. -/
theorem c6_mount_adopts_nan :
    orgProviderMountState (some "abc") = .jNaN ∧
    JsVal.jNaN ≠ JsVal.jNull ∧
    orgProviderMountState none = .jNull := by
  decide

/-- C10: whenever the header renders signed in with a non-empty
active-membership list, the auto-select effect selects the first active
membership's org id when nothing is selected, and the post-effect
selection is never null. -/
theorem c10_header_auto_select (isSignedIn : Bool) (orgId : JsVal)
    (ms : List Membership) (hs : isSignedIn = true) (hne : ms ≠ []) :
    (orgId = .jNull →
      headerAutoSelect isSignedIn orgId ms = .jInt (ms.head hne).org_id) ∧
    headerAutoSelect isSignedIn orgId ms ≠ .jNull := by
  subst hs
  cases ms with
  | nil => exact absurd rfl hne
  | cons m rest =>
    constructor
    · rintro rfl
      simp [headerAutoSelect, jsTruthy]
    · by_cases hT : jsTruthy orgId = true
      · have : headerAutoSelect true orgId (m :: rest) = orgId := by
          simp [headerAutoSelect, hT]
        rw [this]
        cases orgId with
        | jNull => simp [jsTruthy] at hT
        | jNaN => simp
        | jInt n => simp
      · have hF : jsTruthy orgId = false := by
          cases h : jsTruthy orgId
          · rfl
          · exact absurd h hT
        simp [headerAutoSelect, hF]

/-- C10 witness: with one active membership of org 42 and nothing
selected, the header selects 42 and the result is not null. -/
theorem c10_header_auto_select_witness :
    headerAutoSelect true .jNull [⟨42, "Acme", "ADMIN", "ACTIVE"⟩] =
      .jInt 42 ∧
    headerAutoSelect true .jNull [⟨42, "Acme", "ADMIN", "ACTIVE"⟩] ≠
      .jNull := by
  have h := c10_header_auto_select true .jNull
    [⟨42, "Acme", "ADMIN", "ACTIVE"⟩] rfl (by decide)
  exact ⟨h.1 rfl, h.2⟩

/-- C9: for every positive integer id, setting the selection persists a
string that the mount effect parses back to the same id (set-then-load
is the identity); setting id 0 removes the persisted value — the
truthiness guard treats 0 like null — so a selection of 0 loads as
null. -/
theorem c9_set_then_load (n : Int) (stored : Option String) (h : 0 < n) :
    orgProviderMountState (setOrgIdStorage (.jInt n) stored) = .jInt n ∧
    setOrgIdStorage (.jInt 0) stored = none ∧
    orgProviderMountState (setOrgIdStorage (.jInt 0) stored) = .jNull := by
  refine ⟨?_, by simp [setOrgIdStorage, jsTruthy],
    by simp [setOrgIdStorage, jsTruthy, orgProviderMountState]⟩
  have ht : jsTruthy (.jInt n) = true := by
    simp [jsTruthy]
    omega
  have hs : setOrgIdStorage (.jInt n) stored = some (natToString n.toNat) := by
    rw [setOrgIdStorage, if_pos ht, jsValToString, intToString,
      if_neg (by omega : ¬ n < 0)]
  rw [hs, orgProviderMountState_natToString (by omega : n.toNat ≠ 0),
    Int.toNat_of_nonneg h.le]

/-- C9 witness: setting org id 7 then loading gives 7 back; setting 0
clears the persisted value and loads as null. -/
theorem c9_set_then_load_witness :
    orgProviderMountState (setOrgIdStorage (.jInt 7) (some "3")) = .jInt 7 ∧
    setOrgIdStorage (.jInt 0) (some "3") = none ∧
    orgProviderMountState (setOrgIdStorage (.jInt 0) (some "3")) = .jNull :=
  c9_set_then_load 7 (some "3") (by decide)

end DockOps
